import Mathlib

/-!
# Kurtosis Lambda executor: bootstrap sequence

A shallow embedding of `golang/lib/execution/kurtosis_lambda_executor.go`
(`getEnvVar` and `KurtosisLambdaExecutor.Run`) together with the properties of
its start-up sequence.

Modelling conventions.

* A Go `error` is `Option GoError`; `none` is `nil`.
* Go strings are Lean strings; `fmt.Sprintf` with the verb `%v` applied to a
  string operand inserts the operand verbatim, so a formatted message is the
  concatenation of the pieces of the format string with the operands.
* Everything `Run` does to the outside world is appended, in program order, to
  an event log that is threaded through the code. The outside world itself
  (process environment, `grpc.Dial`, the server's `Run`) is a record of
  functions; the environment does not change while `Run` executes
  (configuration is static for the lifetime of the process).
* Constants that live in other packages (`kurtosis_lambda_docker_api`,
  `kurtosis_lambda_rpc_api_consts`) are parameters, collected in `Consts`.
-/

namespace KurtosisLambda

/-! ## Errors: `github.com/palantir/stacktrace` -/

/-- A non-nil Go error value. `foreign` is an error made outside the
`stacktrace` package; `newError` and `propagate` are the two ways the
`stacktrace` package makes one (a message, and for `propagate` a cause). -/
inductive GoError where
  | foreign (msg : String)
  | newError (message : String)
  | propagate (cause : GoError) (message : String)
deriving DecidableEq

namespace GoError

/-- The message carried by the outermost layer of an error. -/
def message : GoError → String
  | foreign msg => msg
  | newError m => m
  | propagate _ m => m

/-- The direct cause of an error, when it wraps one. -/
def cause : GoError → Option GoError
  | propagate c _ => some c
  | _ => none

/-- `stacktrace.RootCause`: follow the causes of `stacktrace` errors; an error
made outside the package is returned as it is, and a `stacktrace` error with
no cause gives a fresh plain error (`errors.New`) carrying its message. -/
def rootCause : GoError → GoError
  | propagate c _ => rootCause c
  | newError m => foreign m
  | foreign msg => foreign msg

/-- The messages of an error and of all its causes, outermost first: the
message lines of the text `Error()` prints for a `stacktrace` error. -/
def messages : GoError → List String
  | propagate c m => m :: messages c
  | e => [e.message]

end GoError

/-- The text `sub` occurs inside the text `s`. -/
def Mentions (s sub : String) : Prop := sub.data <:+: s.data

instance (s sub : String) : Decidable (Mentions s sub) := by
  unfold Mentions; infer_instance

/-- Some message of the error or of one of its causes contains `sub`. -/
def GoError.Names (e : GoError) (sub : String) : Prop :=
  ∃ m ∈ e.messages, Mentions m sub

instance (e : GoError) (sub : String) : Decidable (e.Names sub) := by
  unfold GoError.Names; infer_instance

namespace stacktrace

/-- `stacktrace.NewError(msg, vals...)`: an error with the formatted message
and no cause. The argument is the message after formatting. -/
def NewError (formatted : String) : Option GoError :=
  some (GoError.newError formatted)

/-- `stacktrace.Propagate(cause, msg, vals...)`: `nil` for a `nil` cause,
otherwise an error with the formatted message wrapping the cause. The second
argument is the message after formatting. -/
def Propagate (cause : Option GoError) (formatted : String) : Option GoError :=
  match cause with
  | none => none
  | some c => some (GoError.propagate c formatted)

end stacktrace

/-! ## Package `time` -/

namespace time

/-- `time.Nanosecond`: a `Duration` counts nanoseconds. -/
def Nanosecond : Int := 1
/-- `time.Microsecond`. -/
def Microsecond : Int := 1000 * Nanosecond
/-- `time.Millisecond`. -/
def Millisecond : Int := 1000 * Microsecond
/-- `time.Second`. -/
def Second : Int := 1000 * Millisecond

end time

/-- `grpcServerStopGracePeriod = 5 * time.Second`. -/
def grpcServerStopGracePeriod : Int := 5 * time.Second

/-! ## Process environment: package `os` -/

/-- The process environment: the value of each variable that is set. -/
abbrev Environ := String → Option String

namespace os

/-- `os.LookupEnv`: the value and `true` for a variable that is set, the empty
string and `false` for one that is not. -/
def LookupEnv (env : Environ) (key : String) : String × Bool :=
  match env key with
  | some v => (v, true)
  | none => ("", false)

end os

/-! ## Collaborating types -/

/-- The constants `Run` reads from `kurtosis_lambda_docker_api` and
`kurtosis_lambda_rpc_api_consts`. -/
structure Consts where
  SerializedCustomParamsEnvVar : String
  ApiContainerSocketEnvVar : String
  ExecutionVolumeMountpoint : String
  ListenPort : Nat
  ListenProtocol : String

/-- The result of `kurtosis_core_rpc_api_bindings.NewApiContainerServiceClient`:
a client over the connection it was given. -/
structure ApiContainerServiceClient (Conn : Type) where
  conn : Conn

/-- `kurtosis_core_rpc_api_bindings.NewApiContainerServiceClient`. -/
def NewApiContainerServiceClient {Conn : Type} (conn : Conn) :
    ApiContainerServiceClient Conn :=
  { conn := conn }

/-- The result of `networks.NewNetworkContext`: the client and the mount point
it was given. -/
structure NetworkContext (Conn : Type) where
  client : ApiContainerServiceClient Conn
  mountpoint : String

/-- `networks.NewNetworkContext`. -/
def NewNetworkContext {Conn : Type} (client : ApiContainerServiceClient Conn)
    (mountpoint : String) : NetworkContext Conn :=
  { client := client, mountpoint := mountpoint }

/-- Modelled from the spec: `NewKurtosisLambdaServiceServer` is defined in a
file of package `execution` that is not part of the sources at hand. The service
adapter "wraps the module instance and the network context". -/
structure KurtosisLambdaServiceServer (L Conn : Type) where
  lambda : L
  networkCtx : NetworkContext Conn

/-- Modelled from the spec: the constructor of the service adapter. -/
def NewKurtosisLambdaServiceServer {L Conn : Type} (lambda : L)
    (networkCtx : NetworkContext Conn) : KurtosisLambdaServiceServer L Conn :=
  { lambda := lambda, networkCtx := networkCtx }

/-- A `grpc.Server` as far as registration is concerned: the Lambda service
implementations registered on it, oldest first. -/
structure GrpcServer (L Conn : Type) where
  lambdaServices : List (KurtosisLambdaServiceServer L Conn)

/-- Modelled from the spec: `RegisterLambdaServiceServer` belongs to the
generated bindings, which are not part of the sources at hand. It registers
the given implementation of the Lambda service (the adapter's single RPC
method) on the given gRPC server. -/
def RegisterLambdaServiceServer {L Conn : Type} (grpcServer : GrpcServer L Conn)
    (srv : KurtosisLambdaServiceServer L Conn) : GrpcServer L Conn :=
  { lambdaServices := grpcServer.lambdaServices ++ [srv] }

/-- The result of `server.NewMinimalGRPCServer`: the four arguments it was
given. A registration function acts on a `grpc.Server`. -/
structure MinimalGRPCServer (L Conn : Type) where
  listenPort : Nat
  listenProtocol : String
  stopGracePeriod : Int
  serviceRegistrationFuncs : List (GrpcServer L Conn → GrpcServer L Conn)

/-- `server.NewMinimalGRPCServer`. -/
def NewMinimalGRPCServer {L Conn : Type} (listenPort : Nat) (listenProtocol : String)
    (stopGracePeriod : Int)
    (serviceRegistrationFuncs : List (GrpcServer L Conn → GrpcServer L Conn)) :
    MinimalGRPCServer L Conn :=
  { listenPort := listenPort, listenProtocol := listenProtocol,
    stopGracePeriod := stopGracePeriod,
    serviceRegistrationFuncs := serviceRegistrationFuncs }

/-- The interface `KurtosisLambdaConfigurator`: the module factory. Its one
method returns a module and an error. -/
structure KurtosisLambdaConfigurator (L : Type) where
  ParseParamsAndCreateKurtosisLambda : String → L × Option GoError

/-- The struct `KurtosisLambdaExecutor`. -/
structure KurtosisLambdaExecutor (L : Type) where
  configurator : KurtosisLambdaConfigurator L

/-- `NewKurtosisLambdaExecutor`. -/
def NewKurtosisLambdaExecutor {L : Type} (configurator : KurtosisLambdaConfigurator L) :
    KurtosisLambdaExecutor L :=
  { configurator := configurator }

/-- The outside world `Run` acts on: the process environment, the outcome of
`grpc.Dial(target, grpc.WithInsecure())` for each target, and the outcome of
running a server. -/
structure World (L Conn : Type) where
  environ : Environ
  dial : String → Conn × Option GoError
  serverRun : MinimalGRPCServer L Conn → Option GoError

/-! ## Events -/

/-- What `Run` does, one event per call that reads or acts on the outside
world or constructs one of the start-up objects. -/
inductive Event (L Conn : Type) where
  | lookupEnv (name : String)
  | parseParamsAndCreateKurtosisLambda (serializedCustomParams : String)
  | dial (target : String)
  | newNetworkContext (client : ApiContainerServiceClient Conn) (mountpoint : String)
  | newKurtosisLambdaServiceServer (lambda : L) (networkCtx : NetworkContext Conn)
  | newMinimalGRPCServer (srv : MinimalGRPCServer L Conn)
  | serverRun (srv : MinimalGRPCServer L Conn)

namespace Event

variable {L Conn : Type}

/-- The event is a read of the process environment. -/
def isLookupEnv : Event L Conn → Bool
  | lookupEnv _ => true
  | _ => false

/-- The event is a call of the module factory. -/
def isFactoryCall : Event L Conn → Bool
  | parseParamsAndCreateKurtosisLambda _ => true
  | _ => false

/-- The event is a dial of the API container. -/
def isDial : Event L Conn → Bool
  | dial _ => true
  | _ => false

/-- The event is the construction of the RPC server. -/
def isNewServer : Event L Conn → Bool
  | newMinimalGRPCServer _ => true
  | _ => false

/-- The event is a run of the RPC server. -/
def isServerRun : Event L Conn → Bool
  | serverRun _ => true
  | _ => false

/-- The event is a network or server action: a dial, or the construction or
the run of the server. -/
def isNetworkOrServerAction (e : Event L Conn) : Bool :=
  e.isDial || e.isNewServer || e.isServerRun

end Event

/-! ## The code -/

/-- `getEnvVar`, threading the event log. -/
def getEnvVar {L Conn : Type} (env : Environ) (envVarName : String)
    (envVarDescription : String) (log : List (Event L Conn)) :
    (String × Option GoError) × List (Event L Conn) :=
  let (envVarValue, found) := os.LookupEnv env envVarName
  let log := log ++ [Event.lookupEnv envVarName]
  if !found then
    (("", stacktrace.NewError
      ("Expected an '" ++ envVarName ++ "' environment variable containing '"
        ++ envVarDescription ++ "', but none was found")), log)
  else if envVarValue = "" then
    (("", stacktrace.NewError
      ("The '" ++ envVarName ++ "' environment variable was defined, but is emptystring")), log)
  else
    ((envVarValue, none), log)

/-- `KurtosisLambdaExecutor.Run`: the returned error and the log of what was
done. -/
def Run {L Conn : Type} (c : Consts) (executor : KurtosisLambdaExecutor L)
    (w : World L Conn) : Option GoError × List (Event L Conn) :=
  match getEnvVar w.environ c.SerializedCustomParamsEnvVar
      "the serialized custom params that the Lambda will consume" [] with
  | ((_, some err), log) =>
    (stacktrace.Propagate (some err)
      "An error occurred when trying to get the serialized custom params environment variable",
      log)
  | ((serializedCustomParams, none), log) =>
    let log := log ++ [Event.parseParamsAndCreateKurtosisLambda serializedCustomParams]
    match executor.configurator.ParseParamsAndCreateKurtosisLambda serializedCustomParams with
    | (_, some err) =>
      (stacktrace.Propagate (some err)
        "An error occurred parsing the serialized custom params and creating the Lambda", log)
    | (lambda, none) =>
      match getEnvVar w.environ c.ApiContainerSocketEnvVar
          "the socket value used in API container connection" log with
      | ((_, some err), log) =>
        (stacktrace.Propagate (some err)
          "An error occurred when trying to get the API container socket environment variable",
          log)
      | ((apiContainerSocket, none), log) =>
        let log := log ++ [Event.dial apiContainerSocket]
        match w.dial apiContainerSocket with
        | (_, some err) =>
          (stacktrace.Propagate (some err)
            ("An error occurred dialling the API container at '" ++ apiContainerSocket ++ "'"),
            log)
        | (conn, none) =>
          let apiClient := NewApiContainerServiceClient conn
          let networkCtx := NewNetworkContext apiClient c.ExecutionVolumeMountpoint
          let log := log ++ [Event.newNetworkContext apiClient c.ExecutionVolumeMountpoint]
          let lambdaServiceServer := NewKurtosisLambdaServiceServer lambda networkCtx
          let log := log ++ [Event.newKurtosisLambdaServiceServer lambda networkCtx]
          let lambdaServiceRegistrationFunc := fun (grpcServer : GrpcServer L Conn) =>
            RegisterLambdaServiceServer grpcServer lambdaServiceServer
          let lambdaServer := NewMinimalGRPCServer c.ListenPort c.ListenProtocol
            grpcServerStopGracePeriod [lambdaServiceRegistrationFunc]
          let log := log ++ [Event.newMinimalGRPCServer lambdaServer]
          let log := log ++ [Event.serverRun lambdaServer]
          match w.serverRun lambdaServer with
          | some err =>
            (stacktrace.Propagate (some err) "An error occurred running the Lambda server", log)
          | none => (none, log)

/-! ## Vocabulary of the properties -/

/-- The variable is set in the environment to the non-empty string `v`. -/
def EnvSet (env : Environ) (name v : String) : Prop :=
  env name = some v ∧ v ≠ ""

/-- The variable is unset in the environment, or set to the empty string. -/
def EnvMissing (env : Environ) (name : String) : Prop :=
  env name = none ∨ env name = some ""

/-- The error `getEnvVar` makes for a variable that is not set. -/
def missingError (envVarName envVarDescription : String) : GoError :=
  GoError.newError ("Expected an '" ++ envVarName ++ "' environment variable containing '"
    ++ envVarDescription ++ "', but none was found")

/-- The error `getEnvVar` makes for a variable that is set to the empty string. -/
def emptyError (envVarName : String) : GoError :=
  GoError.newError
    ("The '" ++ envVarName ++ "' environment variable was defined, but is emptystring")

/-- The error is one of the two configuration errors of `getEnvVar` for the
variable `name` with description `desc`. -/
def IsConfigError (name desc : String) (e : GoError) : Prop :=
  e = missingError name desc ∨ e = emptyError name

instance (name desc : String) (e : GoError) : Decidable (IsConfigError name desc e) := by
  unfold IsConfigError; infer_instance

/-- The description `Run` passes for the serialized-custom-params variable. -/
def paramsDescription : String :=
  "the serialized custom params that the Lambda will consume"

/-- The description `Run` passes for the API-container-socket variable. -/
def socketDescription : String :=
  "the socket value used in API container connection"

/-- The server `Run` constructs from a module and a connection. -/
def lambdaServerOf {L Conn : Type} (c : Consts) (lambda : L) (conn : Conn) :
    MinimalGRPCServer L Conn :=
  NewMinimalGRPCServer c.ListenPort c.ListenProtocol grpcServerStopGracePeriod
    [fun grpcServer => RegisterLambdaServiceServer grpcServer
      (NewKurtosisLambdaServiceServer lambda
        (NewNetworkContext (NewApiContainerServiceClient conn) c.ExecutionVolumeMountpoint))]

/-- The error returned by `Run` wraps a configuration error of the variable
`name`: its direct cause is one of the two errors `getEnvVar` makes for it. -/
def WrapsConfigError (name desc : String) (e : GoError) : Prop :=
  ∃ cause, e.cause = some cause ∧ IsConfigError name desc cause

/-- The number of events of a log that satisfy a test. -/
def count {L Conn : Type} (p : Event L Conn → Bool) (log : List (Event L Conn)) : Nat :=
  (log.filter p).length

/-! ## Sample inputs

The variable names and values are those of the scenarios of the
specification; the module and the connection carry no data. -/

/-- Sample constants. -/
def sampleConsts : Consts :=
  { SerializedCustomParamsEnvVar := "PARAMS"
    ApiContainerSocketEnvVar := "SOCKET"
    ExecutionVolumeMountpoint := "/kurtosis-execution-volume"
    ListenPort := 1111
    ListenProtocol := "tcp" }

/-- Both variables set: `PARAMS` to the empty JSON object and `SOCKET` to an address. -/
def envBoth : Environ := fun k =>
  if k = "PARAMS" then some "{}" else if k = "SOCKET" then some "127.0.0.1:9000" else none

/-- Only `PARAMS` set. -/
def envSocketUnset : Environ := fun k =>
  if k = "PARAMS" then some "{}" else none

/-- `PARAMS` set and `SOCKET` set to the empty string. -/
def envSocketEmpty : Environ := fun k =>
  if k = "PARAMS" then some "{}" else if k = "SOCKET" then some "" else none

/-- Nothing set. -/
def envNothing : Environ := fun _ => none

/-- Every variable set to the empty string. -/
def envAllEmpty : Environ := fun _ => some ""

/-- An executor whose factory succeeds on every input. -/
def succeedingExecutor : KurtosisLambdaExecutor Unit :=
  NewKurtosisLambdaExecutor { ParseParamsAndCreateKurtosisLambda := fun _ => ((), none) }

/-- An executor whose factory fails on every input. -/
def failingExecutor : KurtosisLambdaExecutor Unit :=
  NewKurtosisLambdaExecutor
    { ParseParamsAndCreateKurtosisLambda := fun _ =>
        ((), some (GoError.foreign "invalid params")) }

/-- A world where the dial and the server run succeed. -/
def calmWorld (env : Environ) : World Unit Unit :=
  { environ := env, dial := fun _ => ((), none), serverRun := fun _ => none }

/-- A world where the dial fails. -/
def dialFailsWorld (env : Environ) : World Unit Unit :=
  { environ := env
    dial := fun _ => ((), some (GoError.foreign "dial failed"))
    serverRun := fun _ => none }

/-- A world where the server run fails. -/
def serverFailsWorld (env : Environ) : World Unit Unit :=
  { environ := env
    dial := fun _ => ((), none)
    serverRun := fun _ => some (GoError.foreign "bind failed") }

/-! ## `getEnvVar` -/

section GetEnvVar

variable {L Conn : Type}

theorem getEnvVar_unset (env : Environ) (name desc : String) (log : List (Event L Conn))
    (h : env name = none) :
    getEnvVar env name desc log
      = (("", some (missingError name desc)), log ++ [Event.lookupEnv name]) := by
  simp [getEnvVar, os.LookupEnv, h, stacktrace.NewError, missingError]

theorem getEnvVar_empty (env : Environ) (name desc : String) (log : List (Event L Conn))
    (h : env name = some "") :
    getEnvVar env name desc log
      = (("", some (emptyError name)), log ++ [Event.lookupEnv name]) := by
  simp [getEnvVar, os.LookupEnv, h, stacktrace.NewError, emptyError]

theorem getEnvVar_set (env : Environ) (name desc v : String) (log : List (Event L Conn))
    (h : EnvSet env name v) :
    getEnvVar env name desc log = ((v, none), log ++ [Event.lookupEnv name]) := by
  obtain ⟨h1, h2⟩ := h
  simp [getEnvVar, os.LookupEnv, h1, h2]

theorem envSet_or_envMissing (env : Environ) (name : String) :
    (∃ v, EnvSet env name v) ∨ EnvMissing env name := by
  unfold EnvSet EnvMissing
  cases h : env name with
  | none => exact Or.inr (Or.inl rfl)
  | some v =>
    by_cases hv : v = ""
    · subst hv; exact Or.inr (Or.inr rfl)
    · exact Or.inl ⟨v, rfl, hv⟩

theorem not_envSet_of_envMissing (env : Environ) (name v : String)
    (hm : EnvMissing env name) : ¬ EnvSet env name v := by
  rintro ⟨h1, h2⟩
  rcases hm with h | h
  · rw [h] at h1; cases h1
  · rw [h] at h1; cases h1; exact h2 rfl

theorem getEnvVar_missing (env : Environ) (name desc : String) (log : List (Event L Conn))
    (h : EnvMissing env name) :
    ∃ e, IsConfigError name desc e ∧
      getEnvVar env name desc log = (("", some e), log ++ [Event.lookupEnv name]) := by
  rcases h with h | h
  · exact ⟨_, Or.inl rfl, getEnvVar_unset env name desc log h⟩
  · exact ⟨_, Or.inr rfl, getEnvVar_empty env name desc log h⟩

theorem mentions_mid (a b s : String) : Mentions (a ++ s ++ b) s := by
  unfold Mentions
  simp only [String.data_append]
  exact ⟨_, _, rfl⟩

theorem missingError_mentions_name (name desc : String) :
    Mentions (missingError name desc).message name := by
  unfold Mentions missingError GoError.message
  simp only [String.data_append]
  exact ⟨"Expected an '".data,
    "' environment variable containing '".data ++ desc.data ++ "', but none was found".data,
    by simp [List.append_assoc]⟩

theorem missingError_mentions_description (name desc : String) :
    Mentions (missingError name desc).message desc := by
  unfold Mentions missingError GoError.message
  simp only [String.data_append]
  exact ⟨"Expected an '".data ++ name.data ++ "' environment variable containing '".data,
    "', but none was found".data, by simp [List.append_assoc]⟩

theorem emptyError_mentions_name (name : String) :
    Mentions (emptyError name).message name := by
  unfold emptyError GoError.message
  exact mentions_mid _ _ _

theorem missingError_message_ne_emptyError_message (name desc : String) :
    (missingError name desc).message ≠ (emptyError name).message := by
  intro h
  have h2 := congrArg String.data h
  simp [missingError, emptyError, GoError.message, String.data_append] at h2

theorem isConfigError_mentions_name (name desc : String) (e : GoError)
    (h : IsConfigError name desc e) : Mentions e.message name := by
  rcases h with h | h
  · rw [h]; exact missingError_mentions_name name desc
  · rw [h]; exact emptyError_mentions_name name

end GetEnvVar

/-! ## The six paths through `Run` -/

section Paths

variable {L Conn : Type}

theorem Run_params_missing (c : Consts) (x : KurtosisLambdaExecutor L) (w : World L Conn)
    (hp : EnvMissing w.environ c.SerializedCustomParamsEnvVar) :
    ∃ e, IsConfigError c.SerializedCustomParamsEnvVar paramsDescription e ∧
      Run c x w = (some (GoError.propagate e
        "An error occurred when trying to get the serialized custom params environment variable"),
        [Event.lookupEnv c.SerializedCustomParamsEnvVar]) := by
  obtain ⟨e, he, hg⟩ := @getEnvVar_missing L Conn w.environ
    c.SerializedCustomParamsEnvVar paramsDescription [] hp
  refine ⟨e, he, ?_⟩
  unfold paramsDescription at hg
  simp [Run, hg, stacktrace.Propagate]

theorem Run_factory_error (c : Consts) (x : KurtosisLambdaExecutor L) (w : World L Conn)
    (v : String) (l : L) (e : GoError)
    (hp : EnvSet w.environ c.SerializedCustomParamsEnvVar v)
    (hf : x.configurator.ParseParamsAndCreateKurtosisLambda v = (l, some e)) :
    Run c x w = (some (GoError.propagate e
        "An error occurred parsing the serialized custom params and creating the Lambda"),
      [Event.lookupEnv c.SerializedCustomParamsEnvVar,
       Event.parseParamsAndCreateKurtosisLambda v]) := by
  have hg := @getEnvVar_set L Conn w.environ
    c.SerializedCustomParamsEnvVar paramsDescription v [] hp
  unfold paramsDescription at hg
  simp [Run, hg, hf, stacktrace.Propagate]

theorem Run_socket_missing (c : Consts) (x : KurtosisLambdaExecutor L) (w : World L Conn)
    (v : String) (l : L)
    (hp : EnvSet w.environ c.SerializedCustomParamsEnvVar v)
    (hf : x.configurator.ParseParamsAndCreateKurtosisLambda v = (l, none))
    (hs : EnvMissing w.environ c.ApiContainerSocketEnvVar) :
    ∃ e, IsConfigError c.ApiContainerSocketEnvVar socketDescription e ∧
      Run c x w = (some (GoError.propagate e
        "An error occurred when trying to get the API container socket environment variable"),
        [Event.lookupEnv c.SerializedCustomParamsEnvVar,
         Event.parseParamsAndCreateKurtosisLambda v,
         Event.lookupEnv c.ApiContainerSocketEnvVar]) := by
  have hg := @getEnvVar_set L Conn w.environ
    c.SerializedCustomParamsEnvVar paramsDescription v [] hp
  obtain ⟨e, he, hg2⟩ := @getEnvVar_missing L Conn w.environ
    c.ApiContainerSocketEnvVar socketDescription
    [Event.lookupEnv c.SerializedCustomParamsEnvVar,
     Event.parseParamsAndCreateKurtosisLambda v] hs
  refine ⟨e, he, ?_⟩
  unfold paramsDescription at hg
  unfold socketDescription at hg2
  simp at hg hg2
  simp [Run, hg, hf, hg2, stacktrace.Propagate]

theorem Run_dial_error (c : Consts) (x : KurtosisLambdaExecutor L) (w : World L Conn)
    (v a : String) (l : L) (conn : Conn) (e : GoError)
    (hp : EnvSet w.environ c.SerializedCustomParamsEnvVar v)
    (hf : x.configurator.ParseParamsAndCreateKurtosisLambda v = (l, none))
    (hs : EnvSet w.environ c.ApiContainerSocketEnvVar a)
    (hd : w.dial a = (conn, some e)) :
    Run c x w = (some (GoError.propagate e
        ("An error occurred dialling the API container at '" ++ a ++ "'")),
      [Event.lookupEnv c.SerializedCustomParamsEnvVar,
       Event.parseParamsAndCreateKurtosisLambda v,
       Event.lookupEnv c.ApiContainerSocketEnvVar,
       Event.dial a]) := by
  have hg := @getEnvVar_set L Conn w.environ
    c.SerializedCustomParamsEnvVar paramsDescription v [] hp
  have hg2 := @getEnvVar_set L Conn w.environ
    c.ApiContainerSocketEnvVar socketDescription a
    [Event.lookupEnv c.SerializedCustomParamsEnvVar,
     Event.parseParamsAndCreateKurtosisLambda v] hs
  unfold paramsDescription at hg
  unfold socketDescription at hg2
  simp at hg hg2
  simp [Run, hg, hf, hg2, hd, stacktrace.Propagate]

/-- The log of a run that gets as far as running the server. -/
theorem Run_server (c : Consts) (x : KurtosisLambdaExecutor L) (w : World L Conn)
    (v a : String) (l : L) (conn : Conn)
    (hp : EnvSet w.environ c.SerializedCustomParamsEnvVar v)
    (hf : x.configurator.ParseParamsAndCreateKurtosisLambda v = (l, none))
    (hs : EnvSet w.environ c.ApiContainerSocketEnvVar a)
    (hd : w.dial a = (conn, none)) :
    Run c x w = (stacktrace.Propagate (w.serverRun (lambdaServerOf c l conn))
        "An error occurred running the Lambda server",
      [Event.lookupEnv c.SerializedCustomParamsEnvVar,
       Event.parseParamsAndCreateKurtosisLambda v,
       Event.lookupEnv c.ApiContainerSocketEnvVar,
       Event.dial a,
       Event.newNetworkContext (NewApiContainerServiceClient conn) c.ExecutionVolumeMountpoint,
       Event.newKurtosisLambdaServiceServer l
         (NewNetworkContext (NewApiContainerServiceClient conn) c.ExecutionVolumeMountpoint),
       Event.newMinimalGRPCServer (lambdaServerOf c l conn),
       Event.serverRun (lambdaServerOf c l conn)]) := by
  have hg := @getEnvVar_set L Conn w.environ
    c.SerializedCustomParamsEnvVar paramsDescription v [] hp
  have hg2 := @getEnvVar_set L Conn w.environ
    c.ApiContainerSocketEnvVar socketDescription a
    [Event.lookupEnv c.SerializedCustomParamsEnvVar,
     Event.parseParamsAndCreateKurtosisLambda v] hs
  unfold paramsDescription at hg
  unfold socketDescription at hg2
  simp at hg hg2
  cases hr : w.serverRun (lambdaServerOf c l conn) with
  | none =>
    unfold lambdaServerOf at hr
    simp [Run, hg, hf, hg2, hd, hr, stacktrace.Propagate, lambdaServerOf]
  | some e =>
    unfold lambdaServerOf at hr
    simp [Run, hg, hf, hg2, hd, hr, stacktrace.Propagate, lambdaServerOf]

theorem envSet_unique (env : Environ) (name v v2 : String)
    (h : EnvSet env name v) (h2 : EnvSet env name v2) : v = v2 := by
  have h3 := h.1
  rw [h2.1] at h3
  exact (Option.some.inj h3).symm

theorem propagate_configError (name desc ctx : String) (cause : GoError)
    (h : IsConfigError name desc cause) :
    WrapsConfigError name desc (GoError.propagate cause ctx) ∧
      (GoError.propagate cause ctx).Names name := by
  refine ⟨⟨cause, rfl, h⟩, cause.message, ?_, isConfigError_mentions_name name desc cause h⟩
  rcases h with h | h <;> simp [h, GoError.messages, missingError, emptyError, GoError.message]

theorem getEnvVar_error (env : Environ) (name desc : String) (log : List (Event L Conn))
    (e : GoError) (h : (getEnvVar env name desc log).1.2 = some e) :
    EnvMissing env name ∧ IsConfigError name desc e := by
  rcases envSet_or_envMissing env name with ⟨v, hv⟩ | hm
  · rw [getEnvVar_set env name desc v log hv] at h
    cases h
  · obtain ⟨e2, he2, hg⟩ := getEnvVar_missing env name desc log hm
    rw [hg] at h
    cases h
    exact ⟨hm, he2⟩

/-- Every run follows one of the paths above. -/
theorem Run_cases (c : Consts) (x : KurtosisLambdaExecutor L) (w : World L Conn) :
    (EnvMissing w.environ c.SerializedCustomParamsEnvVar ∧
      ∃ e, IsConfigError c.SerializedCustomParamsEnvVar paramsDescription e ∧
        Run c x w = (some (GoError.propagate e
          "An error occurred when trying to get the serialized custom params environment variable"),
          [Event.lookupEnv c.SerializedCustomParamsEnvVar])) ∨
    (∃ v l e, EnvSet w.environ c.SerializedCustomParamsEnvVar v ∧
      x.configurator.ParseParamsAndCreateKurtosisLambda v = (l, some e) ∧
      Run c x w = (some (GoError.propagate e
          "An error occurred parsing the serialized custom params and creating the Lambda"),
        [Event.lookupEnv c.SerializedCustomParamsEnvVar,
         Event.parseParamsAndCreateKurtosisLambda v])) ∨
    (∃ v l e, EnvSet w.environ c.SerializedCustomParamsEnvVar v ∧
      x.configurator.ParseParamsAndCreateKurtosisLambda v = (l, none) ∧
      EnvMissing w.environ c.ApiContainerSocketEnvVar ∧
      IsConfigError c.ApiContainerSocketEnvVar socketDescription e ∧
      Run c x w = (some (GoError.propagate e
          "An error occurred when trying to get the API container socket environment variable"),
        [Event.lookupEnv c.SerializedCustomParamsEnvVar,
         Event.parseParamsAndCreateKurtosisLambda v,
         Event.lookupEnv c.ApiContainerSocketEnvVar])) ∨
    (∃ v l a conn e, EnvSet w.environ c.SerializedCustomParamsEnvVar v ∧
      x.configurator.ParseParamsAndCreateKurtosisLambda v = (l, none) ∧
      EnvSet w.environ c.ApiContainerSocketEnvVar a ∧
      w.dial a = (conn, some e) ∧
      Run c x w = (some (GoError.propagate e
          ("An error occurred dialling the API container at '" ++ a ++ "'")),
        [Event.lookupEnv c.SerializedCustomParamsEnvVar,
         Event.parseParamsAndCreateKurtosisLambda v,
         Event.lookupEnv c.ApiContainerSocketEnvVar,
         Event.dial a])) ∨
    (∃ v l a conn, EnvSet w.environ c.SerializedCustomParamsEnvVar v ∧
      x.configurator.ParseParamsAndCreateKurtosisLambda v = (l, none) ∧
      EnvSet w.environ c.ApiContainerSocketEnvVar a ∧
      w.dial a = (conn, none) ∧
      Run c x w = (stacktrace.Propagate (w.serverRun (lambdaServerOf c l conn))
          "An error occurred running the Lambda server",
        [Event.lookupEnv c.SerializedCustomParamsEnvVar,
         Event.parseParamsAndCreateKurtosisLambda v,
         Event.lookupEnv c.ApiContainerSocketEnvVar,
         Event.dial a,
         Event.newNetworkContext (NewApiContainerServiceClient conn)
           c.ExecutionVolumeMountpoint,
         Event.newKurtosisLambdaServiceServer l
           (NewNetworkContext (NewApiContainerServiceClient conn) c.ExecutionVolumeMountpoint),
         Event.newMinimalGRPCServer (lambdaServerOf c l conn),
         Event.serverRun (lambdaServerOf c l conn)])) := by
  rcases envSet_or_envMissing w.environ c.SerializedCustomParamsEnvVar with ⟨v, hp⟩ | hp
  · right
    rcases hf : x.configurator.ParseParamsAndCreateKurtosisLambda v with ⟨l, _ | e⟩
    · right
      rcases envSet_or_envMissing w.environ c.ApiContainerSocketEnvVar with ⟨a, hs⟩ | hs
      · right
        rcases hd : w.dial a with ⟨conn, _ | e⟩
        · exact Or.inr ⟨v, l, a, conn, hp, hf, hs, hd, Run_server c x w v a l conn hp hf hs hd⟩
        · exact Or.inl ⟨v, l, a, conn, e, hp, hf, hs, hd,
            Run_dial_error c x w v a l conn e hp hf hs hd⟩
      · obtain ⟨e, he, hr⟩ := Run_socket_missing c x w v l hp hf hs
        exact Or.inl ⟨v, l, e, hp, hf, hs, he, hr⟩
    · exact Or.inl ⟨v, l, e, hp, hf, Run_factory_error c x w v l e hp hf⟩
  · exact Or.inl ⟨hp, Run_params_missing c x w hp⟩

theorem grpcServerStopGracePeriod_eq : grpcServerStopGracePeriod = 5 * 10 ^ 9 := by
  norm_num [grpcServerStopGracePeriod, time.Second, time.Millisecond, time.Microsecond,
    time.Nanosecond]

/-- A server whose construction is logged is the one built from the module the
factory returned and the connection the dial returned. -/
theorem newServer_mem (c : Consts) (x : KurtosisLambdaExecutor L) (w : World L Conn)
    (srv : MinimalGRPCServer L Conn)
    (h : Event.newMinimalGRPCServer srv ∈ (Run c x w).2) :
    ∃ l conn, srv = lambdaServerOf c l conn := by
  rcases Run_cases c x w with ⟨_, e, _, hr⟩ | ⟨v, l, e, _, _, hr⟩ | ⟨v, l, e, _, _, _, _, hr⟩ |
    ⟨v, l, a, conn, e, _, _, _, _, hr⟩ | ⟨v, l, a, conn, _, _, _, _, hr⟩
  · rw [hr] at h; simp at h
  · rw [hr] at h; simp at h
  · rw [hr] at h; simp at h
  · rw [hr] at h; simp at h
  · rw [hr] at h
    simp at h
    exact ⟨l, conn, h⟩

/-- A network context whose construction is logged was given the fixed mount
point. -/
theorem newNetworkContext_mem (c : Consts) (x : KurtosisLambdaExecutor L) (w : World L Conn)
    (client : ApiContainerServiceClient Conn) (mp : String)
    (h : Event.newNetworkContext client mp ∈ (Run c x w).2) :
    mp = c.ExecutionVolumeMountpoint := by
  rcases Run_cases c x w with ⟨_, e, _, hr⟩ | ⟨v, l, e, _, _, hr⟩ | ⟨v, l, e, _, _, _, _, hr⟩ |
    ⟨v, l, a, conn, e, _, _, _, _, hr⟩ | ⟨v, l, a, conn, _, _, _, _, hr⟩
  · rw [hr] at h; simp at h
  · rw [hr] at h; simp at h
  · rw [hr] at h; simp at h
  · rw [hr] at h; simp at h
  · rw [hr] at h
    simp at h
    exact h.2

end Paths

/-! ## Properties of `getEnvVar` -/

set_option maxRecDepth 100000

/-- C1: for every variable name, description and environment, `getEnvVar`
returns no error exactly when the name is set to a non-empty string; the value
it then returns is the stored string itself; in every other case it returns
the empty string and a non-nil error. -/
theorem getEnvVar_value_iff_set_nonempty {L Conn : Type} (env : Environ)
    (name desc : String) (log : List (Event L Conn)) :
    ((getEnvVar env name desc log).1.2 = none ↔ ∃ v, env name = some v ∧ v ≠ "") ∧
    (∀ v, env name = some v → v ≠ "" → (getEnvVar env name desc log).1 = (v, none)) ∧
    ((¬ ∃ v, env name = some v ∧ v ≠ "") →
      (getEnvVar env name desc log).1.1 = "" ∧ (getEnvVar env name desc log).1.2 ≠ none) := by
  rcases envSet_or_envMissing env name with ⟨v, hv⟩ | hm
  · have hg := getEnvVar_set env name desc v log hv
    refine ⟨?_, ?_, ?_⟩
    · rw [hg]; exact ⟨fun _ => ⟨v, hv⟩, fun _ => rfl⟩
    · intro v2 h1 _
      rw [hg]
      have : v2 = v := by
        have h3 := hv.1
        rw [h1] at h3
        exact Option.some.inj h3
      rw [this]
    · intro hn
      exact absurd ⟨v, hv⟩ hn
  · obtain ⟨e, _, hg⟩ := getEnvVar_missing env name desc log hm
    refine ⟨?_, ?_, ?_⟩
    · rw [hg]
      constructor
      · intro h; cases h
      · rintro ⟨v, hv⟩
        exact absurd hv (not_envSet_of_envMissing env name v hm)
    · intro v h1 h2
      exact absurd ⟨h1, h2⟩ (not_envSet_of_envMissing env name v hm)
    · intro _
      rw [hg]
      exact ⟨rfl, by simp⟩

/-- C1, witness: `PARAMS` set to the empty JSON object is returned as it is;
`SOCKET`, unset, gives the empty string and an error. -/
theorem getEnvVar_value_iff_set_nonempty_witness :
    (getEnvVar envSocketUnset "PARAMS" paramsDescription
      ([] : List (Event Unit Unit))).1 = ("{}", none) ∧
    (getEnvVar envSocketUnset "SOCKET" socketDescription
      ([] : List (Event Unit Unit))).1.1 = "" ∧
    (getEnvVar envSocketUnset "SOCKET" socketDescription
      ([] : List (Event Unit Unit))).1.2 ≠ none :=
  ⟨(getEnvVar_value_iff_set_nonempty envSocketUnset "PARAMS" paramsDescription
      ([] : List (Event Unit Unit))).2.1 "{}" rfl (by decide),
    ((getEnvVar_value_iff_set_nonempty envSocketUnset "SOCKET" socketDescription
      ([] : List (Event Unit Unit))).2.2 (by rintro ⟨v, hv, _⟩; cases hv)).1,
    ((getEnvVar_value_iff_set_nonempty envSocketUnset "SOCKET" socketDescription
      ([] : List (Event Unit Unit))).2.2 (by rintro ⟨v, hv, _⟩; cases hv)).2⟩

/-- C2, counterexample: for the variable `SOCKET` set to the empty string and
the description `Run` passes for the socket variable, the message of the error
`getEnvVar` returns does not contain the description. -/
theorem getEnvVar_empty_message_lacks_description :
    (getEnvVar envAllEmpty "SOCKET" socketDescription
        ([] : List (Event Unit Unit))).1.2
      = some (GoError.newError
          "The 'SOCKET' environment variable was defined, but is emptystring") ∧
    ¬ Mentions
        "The 'SOCKET' environment variable was defined, but is emptystring"
        socketDescription := by
  refine ⟨?_, ?_⟩
  · rw [getEnvVar_empty envAllEmpty "SOCKET" socketDescription [] rfl]
    rfl
  · unfold socketDescription
    decide

/-- C2, amended: for every variable name and description, the error `getEnvVar`
returns when the name is unset and the one it returns when the name is set to
the empty string are distinct errors with different messages; both messages
contain the variable name, the message for the unset name contains the
description as well, and the error for the empty value is the same whatever the
description. -/
theorem getEnvVar_errors_distinct {L Conn : Type} (envU envE : Environ)
    (name desc : String) (log : List (Event L Conn))
    (hU : envU name = none) (hE : envE name = some "") :
    ∃ eU eE,
      (getEnvVar envU name desc log).1 = ("", some eU) ∧
      (getEnvVar envE name desc log).1 = ("", some eE) ∧
      eU ≠ eE ∧ eU.message ≠ eE.message ∧
      Mentions eU.message name ∧ Mentions eU.message desc ∧
      Mentions eE.message name ∧
      ∀ desc2, (getEnvVar envE name desc2 log).1 = ("", some eE) := by
  refine ⟨missingError name desc, emptyError name, ?_, ?_, ?_, ?_, ?_, ?_, ?_, ?_⟩
  · rw [getEnvVar_unset envU name desc log hU]
  · rw [getEnvVar_empty envE name desc log hE]
  · intro h
    exact missingError_message_ne_emptyError_message name desc (congrArg GoError.message h)
  · exact missingError_message_ne_emptyError_message name desc
  · exact missingError_mentions_name name desc
  · exact missingError_mentions_description name desc
  · exact emptyError_mentions_name name
  · intro desc2
    rw [getEnvVar_empty envE name desc2 log hE]

/-- C2, witness: the variable `PARAMS`, unset in one environment and empty in
the other. -/
theorem getEnvVar_errors_distinct_witness :
    envNothing "PARAMS" = none ∧ envAllEmpty "PARAMS" = some "" ∧
    ∃ eU eE,
      (getEnvVar envNothing "PARAMS" paramsDescription
        ([] : List (Event Unit Unit))).1 = ("", some eU) ∧
      (getEnvVar envAllEmpty "PARAMS" paramsDescription
        ([] : List (Event Unit Unit))).1 = ("", some eE) ∧
      eU ≠ eE ∧ eU.message ≠ eE.message ∧
      Mentions eU.message "PARAMS" ∧ Mentions eU.message paramsDescription ∧
      Mentions eE.message "PARAMS" ∧
      ∀ desc2, (getEnvVar envAllEmpty "PARAMS" desc2
        ([] : List (Event Unit Unit))).1 = ("", some eE) :=
  ⟨rfl, rfl, getEnvVar_errors_distinct envNothing envAllEmpty "PARAMS" paramsDescription
    [] rfl rfl⟩

/-! ## Properties of `Run`: failures before the server -/

section RunFailures

variable {L Conn : Type}

/-- C3, counterexample: with `PARAMS` set, `SOCKET` unset and a factory that
fails, `Run` returns the factory's error wrapped; the error is not a
configuration error of `SOCKET` and none of its messages contains `SOCKET`. -/
theorem Run_socket_unset_factory_fails :
    EnvMissing (calmWorld envSocketUnset).environ sampleConsts.ApiContainerSocketEnvVar ∧
    (Run sampleConsts failingExecutor (calmWorld envSocketUnset)).1
      = some (GoError.propagate (GoError.foreign "invalid params")
          "An error occurred parsing the serialized custom params and creating the Lambda") ∧
    (¬ ∃ e desc, (Run sampleConsts failingExecutor (calmWorld envSocketUnset)).1 = some e ∧
        WrapsConfigError "SOCKET" desc e) ∧
    (¬ ∃ e, (Run sampleConsts failingExecutor (calmWorld envSocketUnset)).1 = some e ∧
        e.Names "SOCKET") := by
  have hr : (Run sampleConsts failingExecutor (calmWorld envSocketUnset)).1
      = some (GoError.propagate (GoError.foreign "invalid params")
          "An error occurred parsing the serialized custom params and creating the Lambda") := by
    rw [Run_factory_error sampleConsts failingExecutor (calmWorld envSocketUnset) "{}" ()
      (GoError.foreign "invalid params") ⟨rfl, by decide⟩ rfl]
  refine ⟨Or.inl rfl, hr, ?_, ?_⟩
  · rintro ⟨e, desc, he, cause, hc, hcfg⟩
    rw [hr] at he
    cases he
    cases hc
    rcases hcfg with h | h <;> cases h
  · rintro ⟨e, he, hn⟩
    rw [hr] at he
    cases he
    revert hn
    decide

/-- C3, amended: for every environment in which at least one of the two
required variables is unset or empty, and for every behaviour of the module
factory, `Run` returns an error and the server is never run. The error is the
configuration error of the params variable, naming it, when that variable is
missing; it is the configuration error of the socket variable, naming it, when
the params variable is set and the factory succeeds; it is the factory's error,
wrapped, when the params variable is set and the factory fails. -/
theorem Run_missing_variable_fails (c : Consts) (x : KurtosisLambdaExecutor L)
    (w : World L Conn)
    (h : EnvMissing w.environ c.SerializedCustomParamsEnvVar ∨
      EnvMissing w.environ c.ApiContainerSocketEnvVar) :
    ∃ e, (Run c x w).1 = some e ∧
      count Event.isServerRun (Run c x w).2 = 0 ∧
      (EnvMissing w.environ c.SerializedCustomParamsEnvVar →
        WrapsConfigError c.SerializedCustomParamsEnvVar paramsDescription e ∧
        e.Names c.SerializedCustomParamsEnvVar) ∧
      (∀ v l, EnvSet w.environ c.SerializedCustomParamsEnvVar v →
        x.configurator.ParseParamsAndCreateKurtosisLambda v = (l, none) →
        WrapsConfigError c.ApiContainerSocketEnvVar socketDescription e ∧
        e.Names c.ApiContainerSocketEnvVar) ∧
      (∀ v l fe, EnvSet w.environ c.SerializedCustomParamsEnvVar v →
        x.configurator.ParseParamsAndCreateKurtosisLambda v = (l, some fe) →
        e = GoError.propagate fe
          "An error occurred parsing the serialized custom params and creating the Lambda") := by
  rcases envSet_or_envMissing w.environ c.SerializedCustomParamsEnvVar with ⟨v, hp⟩ | hp
  · have hs : EnvMissing w.environ c.ApiContainerSocketEnvVar := by
      rcases h with h | h
      · exact absurd hp (not_envSet_of_envMissing _ _ v h)
      · exact h
    rcases hf : x.configurator.ParseParamsAndCreateKurtosisLambda v with ⟨l, _ | fe⟩
    · obtain ⟨e, he, hr⟩ := Run_socket_missing c x w v l hp hf hs
      refine ⟨_, by rw [hr], by rw [hr]; rfl, ?_, ?_, ?_⟩
      · intro hm
        exact absurd hp (not_envSet_of_envMissing _ _ v hm)
      · intro _ _ _ _
        exact propagate_configError _ _ _ e he
      · intro v2 l2 fe2 hp2 hf2
        rw [← envSet_unique _ _ _ _ hp hp2, hf] at hf2
        cases hf2
    · have hr := Run_factory_error c x w v l fe hp hf
      refine ⟨_, by rw [hr], by rw [hr]; rfl, ?_, ?_, ?_⟩
      · intro hm
        exact absurd hp (not_envSet_of_envMissing _ _ v hm)
      · intro v2 l2 hp2 hf2
        rw [← envSet_unique _ _ _ _ hp hp2, hf] at hf2
        cases hf2
      · intro v2 l2 fe2 hp2 hf2
        rw [← envSet_unique _ _ _ _ hp hp2, hf] at hf2
        cases hf2
        rfl
  · obtain ⟨e, he, hr⟩ := Run_params_missing c x w hp
    refine ⟨_, by rw [hr], by rw [hr]; rfl, ?_, ?_, ?_⟩
    · intro _
      exact propagate_configError _ _ _ e he
    · intro v l hp2 _
      exact absurd hp2 (not_envSet_of_envMissing _ _ v hp)
    · intro v l fe hp2 _
      exact absurd hp2 (not_envSet_of_envMissing _ _ v hp)

/-- C3, witness: `PARAMS` set, `SOCKET` unset, a factory that succeeds. -/
theorem Run_missing_variable_fails_witness :
    (EnvMissing (calmWorld envSocketUnset).environ sampleConsts.SerializedCustomParamsEnvVar ∨
      EnvMissing (calmWorld envSocketUnset).environ sampleConsts.ApiContainerSocketEnvVar) ∧
    ∃ e, (Run sampleConsts succeedingExecutor (calmWorld envSocketUnset)).1 = some e ∧
      count Event.isServerRun (Run sampleConsts succeedingExecutor (calmWorld envSocketUnset)).2
        = 0 ∧
      (EnvMissing (calmWorld envSocketUnset).environ sampleConsts.SerializedCustomParamsEnvVar →
        WrapsConfigError sampleConsts.SerializedCustomParamsEnvVar paramsDescription e ∧
        e.Names sampleConsts.SerializedCustomParamsEnvVar) ∧
      (∀ v l, EnvSet (calmWorld envSocketUnset).environ
          sampleConsts.SerializedCustomParamsEnvVar v →
        succeedingExecutor.configurator.ParseParamsAndCreateKurtosisLambda v = (l, none) →
        WrapsConfigError sampleConsts.ApiContainerSocketEnvVar socketDescription e ∧
        e.Names sampleConsts.ApiContainerSocketEnvVar) ∧
      (∀ v l fe, EnvSet (calmWorld envSocketUnset).environ
          sampleConsts.SerializedCustomParamsEnvVar v →
        succeedingExecutor.configurator.ParseParamsAndCreateKurtosisLambda v = (l, some fe) →
        e = GoError.propagate fe
          "An error occurred parsing the serialized custom params and creating the Lambda") :=
  ⟨Or.inr (Or.inl rfl),
    Run_missing_variable_fails sampleConsts succeedingExecutor (calmWorld envSocketUnset)
      (Or.inr (Or.inl rfl))⟩

/-- C4, counterexample: with `PARAMS` set, `SOCKET` set to the empty string and
a factory that fails, `Run` does not return the configuration error of
`SOCKET`: it returns the factory's error wrapped. -/
theorem Run_socket_empty_factory_fails :
    EnvMissing (calmWorld envSocketEmpty).environ sampleConsts.ApiContainerSocketEnvVar ∧
    Run sampleConsts failingExecutor (calmWorld envSocketEmpty)
      = (some (GoError.propagate (GoError.foreign "invalid params")
          "An error occurred parsing the serialized custom params and creating the Lambda"),
        [Event.lookupEnv "PARAMS", Event.parseParamsAndCreateKurtosisLambda "{}"]) ∧
    (¬ ∃ e name desc, (Run sampleConsts failingExecutor (calmWorld envSocketEmpty)).1 = some e ∧
        WrapsConfigError name desc e) := by
  have hr := Run_factory_error sampleConsts failingExecutor (calmWorld envSocketEmpty) "{}" ()
      (GoError.foreign "invalid params") ⟨rfl, by decide⟩ rfl
  refine ⟨Or.inr rfl, hr, ?_⟩
  rintro ⟨e, name, desc, he, cause, hc, hcfg⟩
  rw [hr] at he
  cases he
  cases hc
  rcases hcfg with h | h <;> cases h

/-- C4, amended: for every environment in which a required variable is unset
or empty, `Run` returns an error without any network or server action: no dial
is attempted and no server is constructed or run. The error is the
configuration error of the params variable when that variable is missing, the
configuration error of the socket variable when the params variable is set and
the factory succeeds, and the factory's error, wrapped, when the params
variable is set and the factory fails. When the params
variable is unset, `Run` returns the error made for the unset variable, which
mentions its name, and the only thing done is the lookup of that variable: no
factory call and no dial. -/
theorem Run_missing_variable_no_network (c : Consts) (x : KurtosisLambdaExecutor L)
    (w : World L Conn)
    (h : EnvMissing w.environ c.SerializedCustomParamsEnvVar ∨
      EnvMissing w.environ c.ApiContainerSocketEnvVar) :
    (∃ e, (Run c x w).1 = some e ∧
      ((∃ name desc, (name = c.SerializedCustomParamsEnvVar ∨ name = c.ApiContainerSocketEnvVar) ∧
          EnvMissing w.environ name ∧ WrapsConfigError name desc e ∧ e.Names name) ∨
        (∃ v l fe, EnvSet w.environ c.SerializedCustomParamsEnvVar v ∧
          x.configurator.ParseParamsAndCreateKurtosisLambda v = (l, some fe) ∧
          e.cause = some fe)) ∧
      (EnvMissing w.environ c.SerializedCustomParamsEnvVar →
        (∃ cause, IsConfigError c.SerializedCustomParamsEnvVar paramsDescription cause ∧
          e = GoError.propagate cause
            "An error occurred when trying to get the serialized custom params environment variable") ∧
        e.Names c.SerializedCustomParamsEnvVar) ∧
      (∀ v l, EnvSet w.environ c.SerializedCustomParamsEnvVar v →
        x.configurator.ParseParamsAndCreateKurtosisLambda v = (l, none) →
        (∃ cause, IsConfigError c.ApiContainerSocketEnvVar socketDescription cause ∧
          e = GoError.propagate cause
            "An error occurred when trying to get the API container socket environment variable") ∧
        e.Names c.ApiContainerSocketEnvVar) ∧
      (∀ v l fe, EnvSet w.environ c.SerializedCustomParamsEnvVar v →
        x.configurator.ParseParamsAndCreateKurtosisLambda v = (l, some fe) →
        e = GoError.propagate fe
          "An error occurred parsing the serialized custom params and creating the Lambda")) ∧
    count Event.isDial (Run c x w).2 = 0 ∧
    count Event.isNewServer (Run c x w).2 = 0 ∧
    count Event.isServerRun (Run c x w).2 = 0 ∧
    count Event.isNetworkOrServerAction (Run c x w).2 = 0 ∧
    (w.environ c.SerializedCustomParamsEnvVar = none →
      Run c x w = (some (GoError.propagate
          (missingError c.SerializedCustomParamsEnvVar paramsDescription)
          "An error occurred when trying to get the serialized custom params environment variable"),
        [Event.lookupEnv c.SerializedCustomParamsEnvVar]) ∧
      Mentions (missingError c.SerializedCustomParamsEnvVar paramsDescription).message
        c.SerializedCustomParamsEnvVar ∧
      count Event.isFactoryCall (Run c x w).2 = 0) := by
  rcases envSet_or_envMissing w.environ c.SerializedCustomParamsEnvVar with ⟨v, hp⟩ | hp
  · have hs : EnvMissing w.environ c.ApiContainerSocketEnvVar := by
      rcases h with h | h
      · exact absurd hp (not_envSet_of_envMissing _ _ v h)
      · exact h
    have hnone : ¬ w.environ c.SerializedCustomParamsEnvVar = none := by
      rw [hp.1]; simp
    rcases hf : x.configurator.ParseParamsAndCreateKurtosisLambda v with ⟨l, _ | fe⟩
    · obtain ⟨e, he, hr⟩ := Run_socket_missing c x w v l hp hf hs
      rw [hr]
      refine ⟨⟨_, rfl, Or.inl ⟨c.ApiContainerSocketEnvVar, socketDescription, Or.inr rfl, hs,
        propagate_configError _ _ _ e he⟩, ?_, ?_, ?_⟩, rfl, rfl, rfl, rfl,
        fun h0 => absurd h0 hnone⟩
      · intro hm
        exact absurd hp (not_envSet_of_envMissing _ _ v hm)
      · intro _ _ _ _
        exact ⟨⟨e, he, rfl⟩, (propagate_configError _ _ _ e he).2⟩
      · intro v2 l2 fe2 hp2 hf2
        rw [← envSet_unique _ _ _ _ hp hp2, hf] at hf2
        cases hf2
    · have hr := Run_factory_error c x w v l fe hp hf
      rw [hr]
      refine ⟨⟨_, rfl, Or.inr ⟨v, l, fe, hp, hf, rfl⟩, ?_, ?_, ?_⟩, rfl, rfl, rfl, rfl,
        fun h0 => absurd h0 hnone⟩
      · intro hm
        exact absurd hp (not_envSet_of_envMissing _ _ v hm)
      · intro v2 l2 hp2 hf2
        rw [← envSet_unique _ _ _ _ hp hp2, hf] at hf2
        cases hf2
      · intro v2 l2 fe2 hp2 hf2
        rw [← envSet_unique _ _ _ _ hp hp2, hf] at hf2
        cases hf2
        rfl
  · obtain ⟨e, he, hr⟩ := Run_params_missing c x w hp
    refine ⟨⟨e.propagate _, by rw [hr], Or.inl ⟨c.SerializedCustomParamsEnvVar,
      paramsDescription, Or.inl rfl, hp, propagate_configError _ _ _ e he⟩,
      fun _ => ⟨⟨e, he, rfl⟩, (propagate_configError _ _ _ e he).2⟩,
      fun v l hp2 _ => absurd hp2 (not_envSet_of_envMissing _ _ v hp),
      fun v l fe hp2 _ => absurd hp2 (not_envSet_of_envMissing _ _ v hp)⟩,
      by rw [hr]; rfl, by rw [hr]; rfl, by rw [hr]; rfl, by rw [hr]; rfl, ?_⟩
    intro h0
    have hg := @getEnvVar_unset L Conn w.environ c.SerializedCustomParamsEnvVar
      paramsDescription [] h0
    unfold paramsDescription at hg
    have hr2 : Run c x w = (some (GoError.propagate
          (missingError c.SerializedCustomParamsEnvVar paramsDescription)
          "An error occurred when trying to get the serialized custom params environment variable"),
        [Event.lookupEnv c.SerializedCustomParamsEnvVar]) := by
      simp [Run, hg, stacktrace.Propagate, paramsDescription]
    refine ⟨hr2, missingError_mentions_name _ _, ?_⟩
    rw [hr2]; rfl

/-- C4, witness: nothing is set in the environment; and, with `PARAMS` set,
`SOCKET` empty and a factory that fails, the error is the factory's. -/
theorem Run_missing_variable_no_network_witness :
    (EnvMissing (calmWorld envNothing).environ sampleConsts.SerializedCustomParamsEnvVar ∨
      EnvMissing (calmWorld envNothing).environ sampleConsts.ApiContainerSocketEnvVar) ∧
    (∃ e, (Run sampleConsts failingExecutor (calmWorld envSocketEmpty)).1 = some e ∧
      e = GoError.propagate (GoError.foreign "invalid params")
        "An error occurred parsing the serialized custom params and creating the Lambda") ∧
    count Event.isNetworkOrServerAction
      (Run sampleConsts succeedingExecutor (calmWorld envNothing)).2 = 0 ∧
    ((calmWorld envNothing).environ sampleConsts.SerializedCustomParamsEnvVar = none →
      Run sampleConsts succeedingExecutor (calmWorld envNothing)
        = (some (GoError.propagate
          (missingError sampleConsts.SerializedCustomParamsEnvVar paramsDescription)
          "An error occurred when trying to get the serialized custom params environment variable"),
        [Event.lookupEnv sampleConsts.SerializedCustomParamsEnvVar]) ∧
      Mentions (missingError sampleConsts.SerializedCustomParamsEnvVar paramsDescription).message
        sampleConsts.SerializedCustomParamsEnvVar ∧
      count Event.isFactoryCall
        (Run sampleConsts succeedingExecutor (calmWorld envNothing)).2 = 0) :=
  ⟨Or.inl (Or.inl rfl),
    (Run_missing_variable_no_network sampleConsts failingExecutor (calmWorld envSocketEmpty)
      (Or.inr (Or.inr rfl))).1.elim
      (fun e he => ⟨e, he.1, he.2.2.2.2 "{}" () (GoError.foreign "invalid params")
        ⟨rfl, by decide⟩ rfl⟩),
    (Run_missing_variable_no_network sampleConsts succeedingExecutor (calmWorld envNothing)
      (Or.inl (Or.inl rfl))).2.2.2.2.1,
    (Run_missing_variable_no_network sampleConsts succeedingExecutor (calmWorld envNothing)
      (Or.inl (Or.inl rfl))).2.2.2.2.2⟩

/-- C5: for every serialized-params value and every error the module factory
returns for it, `Run` returns a non-nil error whose cause is that very error,
with a context message added, and in that run no dial is attempted and no
server is constructed or run: the log holds the lookup of the params variable
and the factory call, nothing else. -/
theorem Run_factory_error_wrapped (c : Consts) (x : KurtosisLambdaExecutor L)
    (w : World L Conn) (v : String) (l : L) (e : GoError)
    (hp : EnvSet w.environ c.SerializedCustomParamsEnvVar v)
    (hf : x.configurator.ParseParamsAndCreateKurtosisLambda v = (l, some e)) :
    (∃ r, (Run c x w).1 = some r ∧ r.cause = some e ∧ r.rootCause = e.rootCause ∧
      r.messages = "An error occurred parsing the serialized custom params and creating the Lambda"
        :: e.messages) ∧
    (Run c x w).2 = [Event.lookupEnv c.SerializedCustomParamsEnvVar,
      Event.parseParamsAndCreateKurtosisLambda v] ∧
    count Event.isDial (Run c x w).2 = 0 ∧
    count Event.isNewServer (Run c x w).2 = 0 ∧
    count Event.isServerRun (Run c x w).2 = 0 := by
  rw [Run_factory_error c x w v l e hp hf]
  exact ⟨⟨_, rfl, rfl, rfl, rfl⟩, rfl, rfl, rfl, rfl⟩

/-- C5, witness: both variables set and a factory that fails. -/
theorem Run_factory_error_wrapped_witness :
    EnvSet (calmWorld envBoth).environ sampleConsts.SerializedCustomParamsEnvVar "{}" ∧
    (∃ r, (Run sampleConsts failingExecutor (calmWorld envBoth)).1 = some r ∧
      r.cause = some (GoError.foreign "invalid params") ∧
      r.rootCause = (GoError.foreign "invalid params").rootCause ∧
      r.messages = "An error occurred parsing the serialized custom params and creating the Lambda"
        :: (GoError.foreign "invalid params").messages) ∧
    (Run sampleConsts failingExecutor (calmWorld envBoth)).2
      = [Event.lookupEnv sampleConsts.SerializedCustomParamsEnvVar,
        Event.parseParamsAndCreateKurtosisLambda "{}"] ∧
    count Event.isDial (Run sampleConsts failingExecutor (calmWorld envBoth)).2 = 0 ∧
    count Event.isNewServer (Run sampleConsts failingExecutor (calmWorld envBoth)).2 = 0 ∧
    count Event.isServerRun (Run sampleConsts failingExecutor (calmWorld envBoth)).2 = 0 :=
  ⟨⟨rfl, by decide⟩,
    Run_factory_error_wrapped sampleConsts failingExecutor (calmWorld envBoth) "{}" ()
      (GoError.foreign "invalid params") ⟨rfl, by decide⟩ rfl⟩

end RunFailures

/-! ## Properties of `Run`: the factory call and the server -/

section RunServer

variable {L Conn : Type}

/-- C6, counterexample: with nothing set in the environment, `Run` ends after
the lookup of `PARAMS` and the module factory is not invoked at all. -/
theorem Run_nothing_set_no_factory_call :
    Run sampleConsts succeedingExecutor (calmWorld envNothing)
      = (some (GoError.propagate (missingError "PARAMS" paramsDescription)
          "An error occurred when trying to get the serialized custom params environment variable"),
        [Event.lookupEnv "PARAMS"]) ∧
    count Event.isFactoryCall (Run sampleConsts succeedingExecutor (calmWorld envNothing)).2
      = 0 := by
  have hg := @getEnvVar_unset Unit Unit envNothing "PARAMS" paramsDescription [] rfl
  unfold paramsDescription at hg
  have hr : Run sampleConsts succeedingExecutor (calmWorld envNothing)
      = (some (GoError.propagate (missingError "PARAMS" paramsDescription)
          "An error occurred when trying to get the serialized custom params environment variable"),
        [Event.lookupEnv "PARAMS"]) := by
    simp [Run, sampleConsts, calmWorld, hg, stacktrace.Propagate, paramsDescription]
  refine ⟨hr, ?_⟩
  rw [hr]; rfl

/-- C6, amended: in every execution of `Run` the module factory is invoked at
most once, whatever it returns. When the params variable is set and non-empty
it is invoked exactly once, right after the lookup of that variable, and its
argument is the value of the variable; when the variable is unset or empty it
is not invoked. -/
theorem Run_factory_call_count (c : Consts) (x : KurtosisLambdaExecutor L)
    (w : World L Conn) :
    count Event.isFactoryCall (Run c x w).2 ≤ 1 ∧
    (∀ v, EnvSet w.environ c.SerializedCustomParamsEnvVar v →
      count Event.isFactoryCall (Run c x w).2 = 1 ∧
      ∃ rest, (Run c x w).2 = Event.lookupEnv c.SerializedCustomParamsEnvVar ::
          Event.parseParamsAndCreateKurtosisLambda v :: rest ∧
        count Event.isFactoryCall rest = 0) ∧
    (EnvMissing w.environ c.SerializedCustomParamsEnvVar →
      count Event.isFactoryCall (Run c x w).2 = 0) := by
  rcases Run_cases c x w with ⟨hp, e, _, hr⟩ | ⟨v, l, e, hp, _, hr⟩ | ⟨v, l, e, hp, _, _, _, hr⟩ |
    ⟨v, l, a, conn, e, hp, _, _, _, hr⟩ | ⟨v, l, a, conn, hp, _, _, _, hr⟩
  · rw [hr]
    refine ⟨Nat.zero_le 1, ?_, fun _ => rfl⟩
    intro v hv
    exact absurd hv (not_envSet_of_envMissing _ _ v hp)
  all_goals
    rw [hr]
    refine ⟨Nat.le_refl 1, ?_, ?_⟩
    · intro v2 hv2
      rw [← envSet_unique _ _ _ _ hp hv2]
      exact ⟨rfl, _, rfl, rfl⟩
    · intro hm
      exact absurd hp (not_envSet_of_envMissing _ _ v hm)

/-- C6, witness: with both variables set the factory is invoked once, on the
value of `PARAMS`. -/
theorem Run_factory_call_count_witness :
    count Event.isFactoryCall (Run sampleConsts succeedingExecutor (calmWorld envBoth)).2 = 1 ∧
    ∃ rest, (Run sampleConsts succeedingExecutor (calmWorld envBoth)).2
        = Event.lookupEnv "PARAMS" :: Event.parseParamsAndCreateKurtosisLambda "{}" :: rest ∧
      count Event.isFactoryCall rest = 0 :=
  (Run_factory_call_count sampleConsts succeedingExecutor (calmWorld envBoth)).2.1 "{}"
    ⟨rfl, by decide⟩

/-- C7, counterexample: with both variables set and a factory that succeeds,
a dial that fails ends `Run` before the server is constructed: the server is
neither constructed nor run. -/
theorem Run_dial_fails_no_server :
    EnvSet (dialFailsWorld envBoth).environ sampleConsts.SerializedCustomParamsEnvVar "{}" ∧
    EnvSet (dialFailsWorld envBoth).environ sampleConsts.ApiContainerSocketEnvVar
      "127.0.0.1:9000" ∧
    succeedingExecutor.configurator.ParseParamsAndCreateKurtosisLambda "{}" = ((), none) ∧
    Run sampleConsts succeedingExecutor (dialFailsWorld envBoth)
      = (some (GoError.propagate (GoError.foreign "dial failed")
          "An error occurred dialling the API container at '127.0.0.1:9000'"),
        [Event.lookupEnv "PARAMS", Event.parseParamsAndCreateKurtosisLambda "{}",
         Event.lookupEnv "SOCKET", Event.dial "127.0.0.1:9000"]) ∧
    count Event.isNewServer (Run sampleConsts succeedingExecutor (dialFailsWorld envBoth)).2
      = 0 ∧
    count Event.isServerRun (Run sampleConsts succeedingExecutor (dialFailsWorld envBoth)).2
      = 0 := by
  have hp : EnvSet (dialFailsWorld envBoth).environ
      sampleConsts.SerializedCustomParamsEnvVar "{}" := ⟨rfl, by decide⟩
  have hs : EnvSet (dialFailsWorld envBoth).environ
      sampleConsts.ApiContainerSocketEnvVar "127.0.0.1:9000" := ⟨rfl, by decide⟩
  have hr := Run_dial_error sampleConsts succeedingExecutor (dialFailsWorld envBoth)
    "{}" "127.0.0.1:9000" () () (GoError.foreign "dial failed") hp rfl hs rfl
  refine ⟨hp, hs, rfl, ?_, ?_, ?_⟩
  · rw [hr]; rfl
  · rw [hr]; rfl
  · rw [hr]; rfl

/-- C7, amended: for every environment in which both required variables are
set and non-empty, every module factory that succeeds and a dial that succeeds,
`Run` constructs the server exactly once and runs it exactly once, as its last
two actions. The list of registration functions handed to the server has
exactly one element, which registers the service adapter built from the
factory's module and the network context; applied to a gRPC server with no
service, it leaves exactly that one service registered. -/
theorem Run_constructs_and_runs_server_once (c : Consts) (x : KurtosisLambdaExecutor L)
    (w : World L Conn) (v a : String) (l : L) (conn : Conn)
    (hp : EnvSet w.environ c.SerializedCustomParamsEnvVar v)
    (hf : x.configurator.ParseParamsAndCreateKurtosisLambda v = (l, none))
    (hs : EnvSet w.environ c.ApiContainerSocketEnvVar a)
    (hd : w.dial a = (conn, none)) :
    count Event.isNewServer (Run c x w).2 = 1 ∧
    count Event.isServerRun (Run c x w).2 = 1 ∧
    ∃ before srv f,
      (Run c x w).2 = before ++ [Event.newMinimalGRPCServer srv, Event.serverRun srv] ∧
      count Event.isNewServer before = 0 ∧ count Event.isServerRun before = 0 ∧
      srv.serviceRegistrationFuncs = [f] ∧
      srv.serviceRegistrationFuncs.length = 1 ∧
      (∀ g, f g = RegisterLambdaServiceServer g
        (NewKurtosisLambdaServiceServer l
          (NewNetworkContext (NewApiContainerServiceClient conn) c.ExecutionVolumeMountpoint))) ∧
      (f { lambdaServices := [] }).lambdaServices
        = [{ lambda := l
             networkCtx := { client := { conn := conn }
                             mountpoint := c.ExecutionVolumeMountpoint } }] := by
  rw [Run_server c x w v a l conn hp hf hs hd]
  refine ⟨rfl, rfl,
    [Event.lookupEnv c.SerializedCustomParamsEnvVar,
     Event.parseParamsAndCreateKurtosisLambda v,
     Event.lookupEnv c.ApiContainerSocketEnvVar,
     Event.dial a,
     Event.newNetworkContext (NewApiContainerServiceClient conn) c.ExecutionVolumeMountpoint,
     Event.newKurtosisLambdaServiceServer l
       (NewNetworkContext (NewApiContainerServiceClient conn) c.ExecutionVolumeMountpoint)],
    lambdaServerOf c l conn,
    fun grpcServer => RegisterLambdaServiceServer grpcServer
      (NewKurtosisLambdaServiceServer l
        (NewNetworkContext (NewApiContainerServiceClient conn) c.ExecutionVolumeMountpoint)),
    rfl, rfl, rfl, rfl, rfl, fun g => rfl, rfl⟩

/-- C7, witness: both variables set, and the factory, the dial and the server
run all succeed. -/
theorem Run_constructs_and_runs_server_once_witness :
    EnvSet (calmWorld envBoth).environ sampleConsts.SerializedCustomParamsEnvVar "{}" ∧
    EnvSet (calmWorld envBoth).environ sampleConsts.ApiContainerSocketEnvVar "127.0.0.1:9000" ∧
    count Event.isNewServer (Run sampleConsts succeedingExecutor (calmWorld envBoth)).2 = 1 ∧
    count Event.isServerRun (Run sampleConsts succeedingExecutor (calmWorld envBoth)).2 = 1 :=
  ⟨⟨rfl, by decide⟩, ⟨rfl, by decide⟩,
    (Run_constructs_and_runs_server_once sampleConsts succeedingExecutor (calmWorld envBoth)
      "{}" "127.0.0.1:9000" () () ⟨rfl, by decide⟩ rfl ⟨rfl, by decide⟩ rfl).1,
    (Run_constructs_and_runs_server_once sampleConsts succeedingExecutor (calmWorld envBoth)
      "{}" "127.0.0.1:9000" () () ⟨rfl, by decide⟩ rfl ⟨rfl, by decide⟩ rfl).2.1⟩

end RunServer

/-! ## Properties of `Run`: the result and the order of the steps -/

section RunOrder

variable {L Conn : Type}

/-- C8: `Run` returns nil exactly when both environment lookups, the factory
call and the dial succeed and the run of the server it constructs returns nil.
Otherwise it returns a non-nil error whose cause is the error of the first
step that fails, in the order params lookup, factory, socket lookup, dial,
server run, and the log ends with the step that fails: no later step is
executed. -/
theorem Run_nil_iff_and_first_failure (c : Consts) (x : KurtosisLambdaExecutor L)
    (w : World L Conn) :
    ((Run c x w).1 = none ↔
      ∃ v l a conn, EnvSet w.environ c.SerializedCustomParamsEnvVar v ∧
        x.configurator.ParseParamsAndCreateKurtosisLambda v = (l, none) ∧
        EnvSet w.environ c.ApiContainerSocketEnvVar a ∧
        w.dial a = (conn, none) ∧
        w.serverRun (lambdaServerOf c l conn) = none) ∧
    (∀ e, (getEnvVar w.environ c.SerializedCustomParamsEnvVar paramsDescription
          ([] : List (Event L Conn))).1.2 = some e →
      Run c x w = (some (GoError.propagate e
          "An error occurred when trying to get the serialized custom params environment variable"),
        [Event.lookupEnv c.SerializedCustomParamsEnvVar])) ∧
    (∀ v l e, EnvSet w.environ c.SerializedCustomParamsEnvVar v →
      x.configurator.ParseParamsAndCreateKurtosisLambda v = (l, some e) →
      Run c x w = (some (GoError.propagate e
          "An error occurred parsing the serialized custom params and creating the Lambda"),
        [Event.lookupEnv c.SerializedCustomParamsEnvVar,
         Event.parseParamsAndCreateKurtosisLambda v])) ∧
    (∀ v l e, EnvSet w.environ c.SerializedCustomParamsEnvVar v →
      x.configurator.ParseParamsAndCreateKurtosisLambda v = (l, none) →
      (getEnvVar w.environ c.ApiContainerSocketEnvVar socketDescription
          [Event.lookupEnv c.SerializedCustomParamsEnvVar,
           (Event.parseParamsAndCreateKurtosisLambda v : Event L Conn)]).1.2 = some e →
      Run c x w = (some (GoError.propagate e
          "An error occurred when trying to get the API container socket environment variable"),
        [Event.lookupEnv c.SerializedCustomParamsEnvVar,
         Event.parseParamsAndCreateKurtosisLambda v,
         Event.lookupEnv c.ApiContainerSocketEnvVar])) ∧
    (∀ v l a conn e, EnvSet w.environ c.SerializedCustomParamsEnvVar v →
      x.configurator.ParseParamsAndCreateKurtosisLambda v = (l, none) →
      EnvSet w.environ c.ApiContainerSocketEnvVar a →
      w.dial a = (conn, some e) →
      Run c x w = (some (GoError.propagate e
          ("An error occurred dialling the API container at '" ++ a ++ "'")),
        [Event.lookupEnv c.SerializedCustomParamsEnvVar,
         Event.parseParamsAndCreateKurtosisLambda v,
         Event.lookupEnv c.ApiContainerSocketEnvVar,
         Event.dial a])) ∧
    (∀ v l a conn e, EnvSet w.environ c.SerializedCustomParamsEnvVar v →
      x.configurator.ParseParamsAndCreateKurtosisLambda v = (l, none) →
      EnvSet w.environ c.ApiContainerSocketEnvVar a →
      w.dial a = (conn, none) →
      w.serverRun (lambdaServerOf c l conn) = some e →
      Run c x w = (some (GoError.propagate e "An error occurred running the Lambda server"),
        [Event.lookupEnv c.SerializedCustomParamsEnvVar,
         Event.parseParamsAndCreateKurtosisLambda v,
         Event.lookupEnv c.ApiContainerSocketEnvVar,
         Event.dial a,
         Event.newNetworkContext (NewApiContainerServiceClient conn)
           c.ExecutionVolumeMountpoint,
         Event.newKurtosisLambdaServiceServer l
           (NewNetworkContext (NewApiContainerServiceClient conn) c.ExecutionVolumeMountpoint),
         Event.newMinimalGRPCServer (lambdaServerOf c l conn),
         Event.serverRun (lambdaServerOf c l conn)])) := by
  refine ⟨?_, ?_, ?_, ?_, ?_, ?_⟩
  · constructor
    · intro h
      rcases Run_cases c x w with ⟨_, e, _, hr⟩ | ⟨v, l, e, _, _, hr⟩ |
        ⟨v, l, e, _, _, _, _, hr⟩ | ⟨v, l, a, conn, e, _, _, _, _, hr⟩ |
        ⟨v, l, a, conn, hp, hf, hs, hd, hr⟩
      · rw [hr] at h; cases h
      · rw [hr] at h; cases h
      · rw [hr] at h; cases h
      · rw [hr] at h; cases h
      · refine ⟨v, l, a, conn, hp, hf, hs, hd, ?_⟩
        rw [hr] at h
        cases hsr : w.serverRun (lambdaServerOf c l conn) with
        | none => rfl
        | some e =>
          rw [hsr] at h
          cases h
    · rintro ⟨v, l, a, conn, hp, hf, hs, hd, hsr⟩
      rw [Run_server c x w v a l conn hp hf hs hd, hsr]
      rfl
  · intro e he
    obtain ⟨hm, _⟩ := getEnvVar_error _ _ _ _ e he
    obtain ⟨e2, _, hr⟩ := Run_params_missing c x w hm
    obtain ⟨e3, _, hg⟩ := @getEnvVar_missing L Conn w.environ c.SerializedCustomParamsEnvVar
      paramsDescription [] hm
    rw [hg] at he
    cases he
    have hg2 := hg
    unfold paramsDescription at hg2
    simp [Run, hg2, stacktrace.Propagate]
  · intro v l e hp hf
    exact Run_factory_error c x w v l e hp hf
  · intro v l e hp hf he
    obtain ⟨hm, _⟩ := getEnvVar_error _ _ _ _ e he
    obtain ⟨e3, _, hg⟩ := @getEnvVar_missing L Conn w.environ c.ApiContainerSocketEnvVar
      socketDescription [Event.lookupEnv c.SerializedCustomParamsEnvVar,
        Event.parseParamsAndCreateKurtosisLambda v] hm
    rw [hg] at he
    cases he
    have hg1 := @getEnvVar_set L Conn w.environ c.SerializedCustomParamsEnvVar
      paramsDescription v [] hp
    have hg2 := hg
    unfold paramsDescription at hg1
    unfold socketDescription at hg2
    simp at hg1 hg2
    simp [Run, hg1, hf, hg2, stacktrace.Propagate]
  · intro v l a conn e hp hf hs hd
    exact Run_dial_error c x w v a l conn e hp hf hs hd
  · intro v l a conn e hp hf hs hd hsr
    rw [Run_server c x w v a l conn hp hf hs hd, hsr]
    rfl

/-- C8, witness: with both variables set and a factory that succeeds, `Run`
returns nil when the dial and the server run succeed, and the server's error,
wrapped, when the server run fails. -/
theorem Run_nil_iff_and_first_failure_witness :
    (Run sampleConsts succeedingExecutor (calmWorld envBoth)).1 = none ∧
    (Run sampleConsts succeedingExecutor (serverFailsWorld envBoth)).1
      = some (GoError.propagate (GoError.foreign "bind failed")
          "An error occurred running the Lambda server") :=
  ⟨(Run_nil_iff_and_first_failure sampleConsts succeedingExecutor (calmWorld envBoth)).1.mpr
      ⟨"{}", (), "127.0.0.1:9000", (), ⟨rfl, by decide⟩, rfl, ⟨rfl, by decide⟩, rfl, rfl⟩,
    congrArg Prod.fst
      ((Run_nil_iff_and_first_failure sampleConsts succeedingExecutor
        (serverFailsWorld envBoth)).2.2.2.2.2 "{}" () "127.0.0.1:9000" ()
        (GoError.foreign "bind failed") ⟨rfl, by decide⟩ rfl ⟨rfl, by decide⟩ rfl rfl)⟩

/-- C9: whenever `Run` constructs the server, its port and protocol are the
constants `ListenPort` and `ListenProtocol` and its stop grace period is
5 seconds, 5 * 10^9 nanoseconds; every network context `Run` constructs is
given the constant `ExecutionVolumeMountpoint`; and a server constructed in any
other run, with another environment, factory, dial and server behaviour, has
the same port, protocol and grace period. -/
theorem Run_server_arguments_fixed (c : Consts) (x : KurtosisLambdaExecutor L)
    (w : World L Conn) (srv : MinimalGRPCServer L Conn)
    (h : Event.newMinimalGRPCServer srv ∈ (Run c x w).2) :
    srv.listenPort = c.ListenPort ∧
    srv.listenProtocol = c.ListenProtocol ∧
    srv.stopGracePeriod = 5 * 10 ^ 9 ∧
    srv.stopGracePeriod = 5 * time.Second ∧
    (∀ client mp, Event.newNetworkContext client mp ∈ (Run c x w).2 →
      mp = c.ExecutionVolumeMountpoint) ∧
    (∀ (x2 : KurtosisLambdaExecutor L) (w2 : World L Conn) (srv2 : MinimalGRPCServer L Conn),
      Event.newMinimalGRPCServer srv2 ∈ (Run c x2 w2).2 →
      srv2.listenPort = srv.listenPort ∧ srv2.listenProtocol = srv.listenProtocol ∧
      srv2.stopGracePeriod = srv.stopGracePeriod) := by
  obtain ⟨l, conn, hsrv⟩ := newServer_mem c x w srv h
  subst hsrv
  refine ⟨rfl, rfl, grpcServerStopGracePeriod_eq, rfl, ?_, ?_⟩
  · intro client mp hm
    exact newNetworkContext_mem c x w client mp hm
  · intro x2 w2 srv2 h2
    obtain ⟨l2, conn2, hsrv2⟩ := newServer_mem c x2 w2 srv2 h2
    subst hsrv2
    exact ⟨rfl, rfl, rfl⟩

/-- C9, witness: both variables set, and the factory, the dial and the server
run all succeed. -/
theorem Run_server_arguments_fixed_witness :
    Event.newMinimalGRPCServer (lambdaServerOf sampleConsts () ())
      ∈ (Run sampleConsts succeedingExecutor (calmWorld envBoth)).2 ∧
    (lambdaServerOf sampleConsts () () : MinimalGRPCServer Unit Unit).listenPort = 1111 ∧
    (lambdaServerOf sampleConsts () () : MinimalGRPCServer Unit Unit).listenProtocol = "tcp" ∧
    (lambdaServerOf sampleConsts () () : MinimalGRPCServer Unit Unit).stopGracePeriod
      = 5 * 10 ^ 9 :=
  have hmem : Event.newMinimalGRPCServer (lambdaServerOf sampleConsts () ())
      ∈ (Run sampleConsts succeedingExecutor (calmWorld envBoth)).2 := by
    rw [Run_server sampleConsts succeedingExecutor (calmWorld envBoth) "{}" "127.0.0.1:9000"
      () () ⟨rfl, by decide⟩ rfl ⟨rfl, by decide⟩ rfl]
    simp
  ⟨hmem,
    (Run_server_arguments_fixed sampleConsts succeedingExecutor (calmWorld envBoth)
      (lambdaServerOf sampleConsts () ()) hmem).1,
    (Run_server_arguments_fixed sampleConsts succeedingExecutor (calmWorld envBoth)
      (lambdaServerOf sampleConsts () ()) hmem).2.1,
    (Run_server_arguments_fixed sampleConsts succeedingExecutor (calmWorld envBoth)
      (lambdaServerOf sampleConsts () ()) hmem).2.2.1⟩

/-- C10: `Run` looks up the socket variable only after the module factory has
returned successfully. When the params variable is set and non-empty and the
socket variable is unset or empty, a factory that succeeds has been invoked
before the lookup of the socket variable and before its configuration error is
returned. When the factory fails, the log ends with the factory call: the
params lookup is the only read of the environment, the socket variable is not
read, and the error returned is the factory's, wrapped. A run with a second
read of the environment is a run where the factory returned no error. When a
dial is attempted, its address is the non-empty value of the socket
variable. -/
theorem Run_socket_lookup_after_factory (c : Consts) (x : KurtosisLambdaExecutor L)
    (w : World L Conn) :
    (∀ v l, EnvSet w.environ c.SerializedCustomParamsEnvVar v →
      EnvMissing w.environ c.ApiContainerSocketEnvVar →
      x.configurator.ParseParamsAndCreateKurtosisLambda v = (l, none) →
      ∃ e, IsConfigError c.ApiContainerSocketEnvVar socketDescription e ∧
        Run c x w = (some (GoError.propagate e
          "An error occurred when trying to get the API container socket environment variable"),
          [Event.lookupEnv c.SerializedCustomParamsEnvVar,
           Event.parseParamsAndCreateKurtosisLambda v,
           Event.lookupEnv c.ApiContainerSocketEnvVar])) ∧
    (∀ v l e, EnvSet w.environ c.SerializedCustomParamsEnvVar v →
      x.configurator.ParseParamsAndCreateKurtosisLambda v = (l, some e) →
      Run c x w = (some (GoError.propagate e
          "An error occurred parsing the serialized custom params and creating the Lambda"),
        [Event.lookupEnv c.SerializedCustomParamsEnvVar,
         Event.parseParamsAndCreateKurtosisLambda v]) ∧
      count Event.isLookupEnv (Run c x w).2 = 1 ∧
      (c.ApiContainerSocketEnvVar ≠ c.SerializedCustomParamsEnvVar →
        Event.lookupEnv c.ApiContainerSocketEnvVar ∉ (Run c x w).2)) ∧
    (2 ≤ count Event.isLookupEnv (Run c x w).2 →
      ∃ v l rest, EnvSet w.environ c.SerializedCustomParamsEnvVar v ∧
        x.configurator.ParseParamsAndCreateKurtosisLambda v = (l, none) ∧
        (Run c x w).2 = Event.lookupEnv c.SerializedCustomParamsEnvVar ::
          Event.parseParamsAndCreateKurtosisLambda v ::
          Event.lookupEnv c.ApiContainerSocketEnvVar :: rest ∧
        count Event.isLookupEnv rest = 0) ∧
    (∀ a, Event.dial a ∈ (Run c x w).2 →
      w.environ c.ApiContainerSocketEnvVar = some a ∧ a ≠ "") := by
  refine ⟨?_, ?_, ?_, ?_⟩
  · intro v l hp hs hf
    exact Run_socket_missing c x w v l hp hf hs
  · intro v l e hp hf
    have hr := Run_factory_error c x w v l e hp hf
    refine ⟨hr, by rw [hr]; rfl, ?_⟩
    intro hne hmem
    rw [hr] at hmem
    simp at hmem
    exact hne hmem
  · intro h2
    rcases Run_cases c x w with ⟨_, e, _, hr⟩ | ⟨v, l, e, _, _, hr⟩ |
      ⟨v, l, e, hp, hf, _, _, hr⟩ | ⟨v, l, a, conn, e, hp, hf, _, _, hr⟩ |
      ⟨v, l, a, conn, hp, hf, _, _, hr⟩
    · rw [hr] at h2
      exact absurd h2 (Nat.not_succ_le_self 1)
    · rw [hr] at h2
      exact absurd h2 (Nat.not_succ_le_self 1)
    · refine ⟨v, l, [], hp, hf, ?_, rfl⟩
      rw [hr]
    · refine ⟨v, l, [Event.dial a], hp, hf, ?_, rfl⟩
      rw [hr]
    · refine ⟨v, l,
        [Event.dial a,
         Event.newNetworkContext (NewApiContainerServiceClient conn)
           c.ExecutionVolumeMountpoint,
         Event.newKurtosisLambdaServiceServer l
           (NewNetworkContext (NewApiContainerServiceClient conn) c.ExecutionVolumeMountpoint),
         Event.newMinimalGRPCServer (lambdaServerOf c l conn),
         Event.serverRun (lambdaServerOf c l conn)], hp, hf, ?_, rfl⟩
      rw [hr]
  · intro a hmem
    rcases Run_cases c x w with ⟨_, e, _, hr⟩ | ⟨v, l, e, _, _, hr⟩ |
      ⟨v, l, e, _, _, _, _, hr⟩ | ⟨v, l, a2, conn, e, _, _, hs, _, hr⟩ |
      ⟨v, l, a2, conn, _, _, hs, _, hr⟩
    · rw [hr] at hmem; simp at hmem
    · rw [hr] at hmem; simp at hmem
    · rw [hr] at hmem; simp at hmem
    · rw [hr] at hmem
      simp at hmem
      rw [hmem]
      exact hs
    · rw [hr] at hmem
      simp at hmem
      rw [hmem]
      exact hs

/-- C10, witness: with `PARAMS` set and `SOCKET` unset, a factory that succeeds
is invoked before the lookup of `SOCKET`; a factory that fails ends the run
before that lookup. -/
theorem Run_socket_lookup_after_factory_witness :
    (∃ e, IsConfigError "SOCKET" socketDescription e ∧
      Run sampleConsts succeedingExecutor (calmWorld envSocketUnset)
        = (some (GoError.propagate e
          "An error occurred when trying to get the API container socket environment variable"),
          [Event.lookupEnv "PARAMS", Event.parseParamsAndCreateKurtosisLambda "{}",
           Event.lookupEnv "SOCKET"])) ∧
    Event.lookupEnv "SOCKET" ∉ (Run sampleConsts failingExecutor (calmWorld envSocketUnset)).2 :=
  ⟨(Run_socket_lookup_after_factory sampleConsts succeedingExecutor
      (calmWorld envSocketUnset)).1 "{}" () ⟨rfl, by decide⟩ (Or.inl rfl) rfl,
    ((Run_socket_lookup_after_factory sampleConsts failingExecutor
      (calmWorld envSocketUnset)).2.1 "{}" () (GoError.foreign "invalid params")
      ⟨rfl, by decide⟩ rfl).2.2 (by decide)⟩

end RunOrder

end KurtosisLambda
